import Mathlib

/-!
Verification development for the GPURent backend (src/backend).

The definitions below are a shallow embedding of the Python source:

* `RedisJobQueue` (src/backend/redis_queue.py) becomes pure functions over an
  `Option RedisState` — `none` models `self.redis_client is None`
  (`is_connected()` false), `some s` a reachable store.  Redis `SETEX` keys
  are modelled with explicit expiry instants; Redis sets as `List String`
  with `sadd`/`srem`; the pending list with `lpush` (cons) and `rpop`
  (pop from the tail).  Wall-clock reads (`datetime.utcnow()`) become an
  explicit `now : Nat` argument.
* `ConnectionManager` (src/backend/main.py) becomes explicit state passing
  over the two dictionaries `host_connections`/`host_users` plus the list of
  durable `Host` rows touched by `connect_host`/`disconnect_host`.
* HTTP handlers (`submit_job`, `update_active_role`) and the job-observer
  WebSocket handler become functions from their inputs and the relevant
  store contents to an `Except` of the HTTP error raised and the new store.
* `GoogleOAuth._verify_oauth_state` (src/backend/google_auth.py) becomes a
  function parametrised by the HMAC `sig`nature oracle (the source's
  `hmac.new(SECRET_KEY, data, sha256).hexdigest()`), since the claims are
  about the comparison and expiry logic, not about SHA-256 itself.
-/

namespace GPURent

/-! ## Job queue data model (src/backend/redis_queue.py) -/

/-- Queue-side job status, `class JobQueueStatus` in redis_queue.py. -/
inductive JobQueueStatus where
  | pending
  | assigned
  | running
  | completed
  | failed
  | cancelled
deriving DecidableEq, Repr

/-- The `job_data` dict flowing through the queue: the `job_id` plus every
field the queue code itself reads or writes; all remaining submitted fields
are carried opaquely in `payload`.  Timestamps (`datetime.utcnow().isoformat()`)
are modelled as `Nat` instants; `result_data` dicts as opaque strings. -/
structure JobData where
  job_id : String
  payload : String := ""
  status : Option JobQueueStatus := none
  queued_at : Option Nat := none
  assigned_at : Option Nat := none
  started_at : Option Nat := none
  completed_at : Option Nat := none
  failed_at : Option Nat := none
  host_id : Option String := none
  result : Option String := none
  error_message : Option String := none
deriving DecidableEq, Repr

/-- The `status_data` dict for a host: `update_host_status` reads only the
`is_online` entry (`status_data.get('is_online')`, absent modelled as `none`,
Python truthiness as `= some true`) and writes `last_updated`. -/
structure HostStatusData where
  is_online : Option Bool := none
  payload : String := ""
  last_updated : Option Nat := none
deriving DecidableEq, Repr

/-- One Redis key written with `SETEX`: it holds a value and the instant at
which it expires. -/
structure ExpEntry (α : Type) where
  key : String
  expireAt : Nat
  val : α
deriving DecidableEq, Repr

/-- Model of `SETEX key ttl value` at time `now`: (re)bind the key, replacing
any previous binding, with expiry `now + ttl`. -/
def kvSet {α : Type} (m : List (ExpEntry α)) (now ttl : Nat) (k : String) (v : α) :
    List (ExpEntry α) :=
  ⟨k, now + ttl, v⟩ :: m.filter (fun e => e.key != k)

/-- Model of `GET key` at time `now`: the stored value unless the key has
expired (`EXISTS` is `kvGet ≠ none`). -/
def kvGet {α : Type} (m : List (ExpEntry α)) (now : Nat) (k : String) : Option α :=
  match m.find? (fun e => e.key == k) with
  | some e => if now < e.expireAt then some e.val else none
  | none => none

/-- Redis `SADD`: membership-set insertion. -/
def sadd (s : List String) (x : String) : List String :=
  if x ∈ s then s else x :: s

/-- Redis `SREM`: membership-set removal. -/
def srem (s : List String) (x : String) : List String :=
  s.filter (fun y => y != x)

/-- Pop from the tail of a list: Redis `RPOP` against a list built with
`LPUSH` (cons at the head). -/
def rpop {α : Type} : List α → Option α × List α
  | [] => (none, [])
  | [x] => (some x, [])
  | x :: y :: xs =>
    let r := rpop (y :: xs)
    (r.1, x :: r.2)

/-- The Redis keyspace used by `RedisJobQueue`: the `gpu_jobs:pending` list,
the `job:{id}` expiring records, the `gpu_jobs:running` / `gpu_jobs:completed`
sets, the `host:{id}` expiring status records and the `active_hosts` set. -/
structure RedisState where
  pending : List JobData := []
  records : List (ExpEntry JobData) := []
  running : List String := []
  completed : List String := []
  hostStatus : List (ExpEntry HostStatusData) := []
  activeHosts : List String := []
deriving DecidableEq, Repr

/-- Key `job:{job_id}`. -/
def jobKey (job_id : String) : String := "job:" ++ job_id

/-- Key `host:{host_id}`. -/
def hostKey (host_id : String) : String := "host:" ++ host_id

/-- `RedisJobQueue.enqueue_job`: stamp `queued_at`/`status = PENDING`,
`LPUSH` onto the pending list, `SETEX` the 24h record.  Returns `False`
without touching anything when the client is absent. -/
def enqueue_job (q : Option RedisState) (now : Nat) (job_data : JobData) :
    Bool × Option RedisState :=
  match q with
  | none => (false, none)
  | some s =>
    let jd := { job_data with queued_at := some now, status := some .pending }
    (true, some { s with
      pending := jd :: s.pending,
      records := kvSet s.records now 86400 (jobKey jd.job_id) jd })

/-- `RedisJobQueue.get_next_job`: `RPOP` the oldest pending entry, restamp it
`ASSIGNED` with `assigned_at`, rewrite the 24h record, return it. -/
def get_next_job (q : Option RedisState) (now : Nat) :
    Option JobData × Option RedisState :=
  match q with
  | none => (none, none)
  | some s =>
    match rpop s.pending with
    | (none, _) => (none, some s)
    | (some jd, rest) =>
      let jd := { jd with status := some .assigned, assigned_at := some now }
      (some jd, some { s with
        pending := rest,
        records := kvSet s.records now 86400 (jobKey jd.job_id) jd })

/-- `RedisJobQueue.start_job`: read-modify-write the record to `RUNNING`
with the host, `SADD` the id into the running set. -/
def start_job (q : Option RedisState) (now : Nat) (job_id host_id : String) :
    Bool × Option RedisState :=
  match q with
  | none => (false, none)
  | some s =>
    match kvGet s.records now (jobKey job_id) with
    | none => (false, some s)
    | some jd =>
      let jd := { jd with status := some .running, host_id := some host_id,
                          started_at := some now }
      (true, some { s with
        records := kvSet s.records now 86400 (jobKey job_id) jd,
        running := sadd s.running job_id })

/-- `RedisJobQueue.complete_job`: read-modify-write the record to `COMPLETED`
with the result, `SREM` from running, `SADD` into completed. -/
def complete_job (q : Option RedisState) (now : Nat) (job_id : String)
    (result_data : String) : Bool × Option RedisState :=
  match q with
  | none => (false, none)
  | some s =>
    match kvGet s.records now (jobKey job_id) with
    | none => (false, some s)
    | some jd =>
      let jd := { jd with status := some .completed, completed_at := some now,
                          result := some result_data }
      (true, some { s with
        records := kvSet s.records now 86400 (jobKey job_id) jd,
        running := srem s.running job_id,
        completed := sadd s.completed job_id })

/-- `RedisJobQueue.fail_job`: read-modify-write the record to `FAILED` with
the error message and `SREM` from running.  Note: unlike `complete_job`, the
source performs no `SADD` into the completed set on this path. -/
def fail_job (q : Option RedisState) (now : Nat) (job_id : String)
    (error_message : String) : Bool × Option RedisState :=
  match q with
  | none => (false, none)
  | some s =>
    match kvGet s.records now (jobKey job_id) with
    | none => (false, some s)
    | some jd =>
      let jd := { jd with status := some .failed, failed_at := some now,
                          error_message := some error_message }
      (true, some { s with
        records := kvSet s.records now 86400 (jobKey job_id) jd,
        running := srem s.running job_id })

/-- `RedisJobQueue.get_job_status`: read the expiring record. -/
def get_job_status (q : Option RedisState) (now : Nat) (job_id : String) :
    Option JobData :=
  match q with
  | none => none
  | some s => kvGet s.records now (jobKey job_id)

/-- `RedisJobQueue.update_host_status`: stamp `last_updated`, `SETEX` the
5-minute host record, then `SADD` into / `SREM` from `active_hosts`
according to the truthiness of `status_data.get('is_online')`. -/
def update_host_status (q : Option RedisState) (now : Nat) (host_id : String)
    (status_data : HostStatusData) : Bool × Option RedisState :=
  match q with
  | none => (false, none)
  | some s =>
    let sd := { status_data with last_updated := some now }
    let s := { s with hostStatus := kvSet s.hostStatus now 300 (hostKey host_id) sd }
    if sd.is_online = some true then
      (true, some { s with activeHosts := sadd s.activeHosts host_id })
    else
      (true, some { s with activeHosts := srem s.activeHosts host_id })

/-- `RedisJobQueue.get_available_hosts`: `SMEMBERS active_hosts`, `[]` when
the store is unreachable. -/
def get_available_hosts (q : Option RedisState) : List String :=
  match q with
  | none => []
  | some s => s.activeHosts

/-- `RedisJobQueue.cleanup_expired_jobs`: `SREM` every member of
`active_hosts` whose `host:{id}` record has expired; returns the count
removed. -/
def cleanup_expired_jobs (q : Option RedisState) (now : Nat) :
    Nat × Option RedisState :=
  match q with
  | none => (0, none)
  | some s =>
    let expired := s.activeHosts.filter
      (fun h => (kvGet s.hostStatus now (hostKey h)).isNone)
    (expired.length, some { s with
      activeHosts := s.activeHosts.filter
        (fun h => (kvGet s.hostStatus now (hostKey h)).isSome) })

/-- The running set of a possibly-unreachable store (empty when unreachable). -/
def runningOf : Option RedisState → List String
  | none => []
  | some s => s.running

/-- The completed set of a possibly-unreachable store. -/
def completedOf : Option RedisState → List String
  | none => []
  | some s => s.completed

/-- The status field of the queue record currently held for a job id. -/
def recordStatus (q : Option RedisState) (now : Nat) (job_id : String) :
    Option JobQueueStatus :=
  (get_job_status q now job_id).bind JobData.status

/-! ## Durable data model (src/backend/models.py, schemas.py) -/

/-- `class UserRole` in models.py. -/
inductive UserRole where
  | host
  | renter
  | admin
deriving DecidableEq, Repr

/-- `class JobStatus` in models.py (durable job status). -/
inductive JobStatus where
  | pending
  | running
  | completed
  | failed
  | cancelled
deriving DecidableEq, Repr

/-- The `.value` of a `JobStatus` enum member. -/
def JobStatus.value : JobStatus → String
  | .pending => "pending"
  | .running => "running"
  | .completed => "completed"
  | .failed => "failed"
  | .cancelled => "cancelled"

/-- A `users` row restricted to the columns the modelled handlers touch.
`is_host` / `is_renter` / `active_role` are the capability fields read and
written by main.py (`update_active_role`, the OAuth callback response) and
declared with these defaults in `schemas.UserResponse`; models.py's `User`
class itself omits the columns — see the C7 analysis. -/
structure UserRow where
  id : String
  email : String := ""
  role : UserRole := .renter
  is_active : Bool := true
  is_host : Bool := false
  is_renter : Bool := true
  active_role : UserRole := .renter
  updated_at : Nat := 0
deriving DecidableEq, Repr

/-- A `hosts` row restricted to the columns the modelled handlers touch:
the integer primary key `id`, the owner-chosen `host_id`, the owner, the
two availability flags and the heartbeat instant. -/
structure HostRow where
  id : Nat
  host_id : String
  owner_id : String
  is_online : Bool := false
  is_available : Bool := true
  last_heartbeat : Option Nat := none
deriving DecidableEq, Repr

/-- A `jobs` row restricted to the fields `submit_job` populates.  `host_id`
is the nullable foreign key onto `hosts.id`.  `max_runtime_hours` is a float
in the source carried opaquely; it is modelled as `Nat`. -/
structure JobRow where
  job_id : String
  renter_id : String
  host_id : Option Nat := none
  title : String := ""
  description : Option String := none
  command : String := ""
  docker_image : Option String := none
  code_archive_url : Option String := none
  gpu_count_required : Nat := 1
  memory_gb_required : Option Nat := none
  max_runtime_hours : Nat := 24
  make_public : Bool := false
  status : JobStatus := .pending
deriving DecidableEq, Repr

/-- An `HTTPException`: status code and `detail` string. -/
structure HTTPError where
  code : Nat
  detail : String
deriving DecidableEq, Repr

/-- Update the first element satisfying `p` (SQLAlchemy `.first()` followed
by an in-place mutation and commit). -/
def updateFirst {α : Type} (l : List α) (p : α → Bool) (f : α → α) : List α :=
  match l with
  | [] => []
  | x :: xs => if p x then f x :: xs else x :: updateFirst xs p f

/-! ## Connection manager (src/backend/main.py, `class ConnectionManager`) -/

/-- The two per-host dictionaries owned by `ConnectionManager`:
`host_connections : Dict[str, WebSocket]` (WebSocket handles modelled as
`Nat`) and `host_users : Dict[str, User]` (modelled by the user's id). -/
structure ConnState where
  host_connections : List (String × Nat) := []
  host_users : List (String × String) := []
deriving DecidableEq, Repr

/-- Python dict assignment `d[k] = v`. -/
def assocSet {α : Type} (m : List (String × α)) (k : String) (v : α) :
    List (String × α) :=
  (k, v) :: m.filter (fun e => e.1 != k)

/-- Python dict lookup `d[k]` / `k in d`. -/
def assocGet {α : Type} (m : List (String × α)) (k : String) : Option α :=
  (m.find? (fun e => e.1 == k)).map Prod.snd

/-- Python `del d[k]`. -/
def assocDel {α : Type} (m : List (String × α)) (k : String) :
    List (String × α) :=
  m.filter (fun e => e.1 != k)

/-- `ConnectionManager.connect_host`: register the channel and the user
under the host id (overwriting any previous registration), then set the
owner's matching `Host` row online with a fresh heartbeat. -/
def connect_host (c : ConnState) (hosts : List HostRow) (ws : Nat)
    (host_id : String) (user : UserRow) (now : Nat) :
    ConnState × List HostRow :=
  let c := { host_connections := assocSet c.host_connections host_id ws,
             host_users := assocSet c.host_users host_id user.id }
  let hosts := updateFirst hosts
    (fun h => h.host_id == host_id && h.owner_id == user.id)
    (fun h => { h with is_online := true, last_heartbeat := some now })
  (c, hosts)

/-- `ConnectionManager.disconnect_host`: if the host id is present in the
channel map, delete that map entry by key, then, if present, delete the
user-map entry and set that user's matching `Host` row offline.  The source
performs no comparison of the stored handle against the disconnecting
channel. -/
def disconnect_host (c : ConnState) (hosts : List HostRow) (host_id : String) :
    ConnState × List HostRow :=
  if (assocGet c.host_connections host_id).isSome then
    let conns := assocDel c.host_connections host_id
    match assocGet c.host_users host_id with
    | some uid =>
      let users := assocDel c.host_users host_id
      let hosts := updateFirst hosts
        (fun h => h.host_id == host_id && h.owner_id == uid)
        (fun h => { h with is_online := false })
      (⟨conns, users⟩, hosts)
    | none => (⟨conns, c.host_users⟩, hosts)
  else (c, hosts)

/-! ## HTTP handlers (src/backend/main.py) -/

/-- The `JobSubmit` request schema (schemas.py), with `host_id` the optional
preferred host. -/
structure JobSubmit where
  title : String := ""
  description : Option String := none
  command : String := ""
  docker_image : Option String := none
  code_archive_url : Option String := none
  gpu_count_required : Nat := 1
  memory_gb_required : Option Nat := none
  max_runtime_hours : Nat := 24
  make_public : Bool := false
  host_id : Option String := none
deriving DecidableEq, Repr

/-- The `Job(...)` constructor call inside `submit_job`: the new row with the
generated `job_id`, the submitting renter, the optional host foreign key and
the submitted fields; `status` takes its column default `PENDING`. -/
def mkNewJob (job_data : JobSubmit) (user : UserRow) (job_id : String)
    (host_fk : Option Nat) : JobRow :=
  { job_id := job_id,
    renter_id := user.id,
    host_id := host_fk,
    title := job_data.title,
    description := job_data.description,
    command := job_data.command,
    docker_image := job_data.docker_image,
    code_archive_url := job_data.code_archive_url,
    gpu_count_required := job_data.gpu_count_required,
    memory_gb_required := job_data.memory_gb_required,
    max_runtime_hours := job_data.max_runtime_hours,
    make_public := job_data.make_public }

/-- `POST /api/jobs` (`submit_job`): when a preferred `host_id` is named,
look up a host row with that id which is both available and online; reject
with 400 when none exists, otherwise bind the job to that host's primary
key.  The handler never touches the Redis queue, so the queue state is
threaded through unchanged.  `job_id` is the freshly generated
`job_{uuid4().hex[:8]}` identifier, passed in since it is random. -/
def submit_job (job_data : JobSubmit) (user : UserRow) (hosts : List HostRow)
    (jobs : List JobRow) (q : Option RedisState) (job_id : String) :
    Except HTTPError JobRow × List JobRow × Option RedisState :=
  match job_data.host_id with
  | some hid =>
    match hosts.find? (fun h => h.host_id == hid && h.is_available && h.is_online) with
    | none => (.error ⟨400, "Specified host not available"⟩, jobs, q)
    | some h =>
      let new_job := mkNewJob job_data user job_id (some h.id)
      (.ok new_job, jobs ++ [new_job], q)
  | none =>
    let new_job := mkNewJob job_data user job_id none
    (.ok new_job, jobs ++ [new_job], q)

/-- The body of the `try` block of `PATCH /api/auth/me/active-role`
(`update_active_role`): switching to host while `is_host` is false raises
403; otherwise the user's `active_role` and `updated_at` are written. -/
def update_active_role_inner (requested : UserRole) (user : UserRow)
    (now : Nat) : Except HTTPError UserRow :=
  if requested = UserRole.host ∧ user.is_host = false then
    .error ⟨403, "You must register as a host before switching to host mode. Please add a GPU host device first."⟩
  else
    .ok { user with active_role := requested, updated_at := now }

/-- `update_active_role` as observed at the HTTP boundary.  The handler's
only exception clause is `except Exception`, which also catches the 403
`HTTPException` raised inside the `try` (there is no `except HTTPException:
raise` here, unlike the other handlers in main.py), rolls back and raises
500.  The second component is the user row after the request: on any error
the rollback leaves it unchanged. -/
def update_active_role (requested : UserRole) (user : UserRow) (now : Nat) :
    Except HTTPError UserRow × UserRow :=
  match update_active_role_inner requested user now with
  | .ok u => (.ok u, u)
  | .error _ => (.error ⟨500, "Failed to update active role"⟩, user)

/-! ## Job-observer WebSocket endpoint (src/backend/main.py) -/

/-- A message the server pushes on the `/ws/job/{job_id}` channel. -/
inductive WsMsg where
  | status (job_id : String) (st : String) (message : String)
      (results_url : Option String)
  | log (job_id : String) (message : String) (timestamp : Nat)
deriving DecidableEq, Repr

/-- A WebSocket close with code and reason. -/
structure WsClose where
  code : Nat
  reason : String
deriving DecidableEq, Repr

/-- The hard-coded `demo_logs` streamed for a running job. -/
def demo_logs : List String :=
  [ "Loading Docker image...",
    "Setting up GPU environment...",
    "Running training script...",
    "Epoch 1/10: loss=0.5, accuracy=0.85",
    "Epoch 2/10: loss=0.4, accuracy=0.87",
    "Training completed successfully!",
    "Uploading results..." ]

/-- `websocket_job_endpoint` (`/ws/job/{job_id}`) after successful token
authentication of `user`: look up the job, close 1008 unless the observer
is the submitting renter or an admin, otherwise send the initial status
message and, for a running job only, the demo log sequence followed by the
terminal completed-status message with the results URL.  Each log is stamped
two seconds after the previous send (`asyncio.sleep(2)` then
`datetime.utcnow()`), modelled from start instant `now`. -/
def websocket_job_endpoint (job_id : String) (jobs : List JobRow)
    (user : UserRow) (now : Nat) : Except WsClose (List WsMsg) :=
  match jobs.find? (fun j => j.job_id == job_id) with
  | none => .error ⟨1008, "Job not found or access denied"⟩
  | some job =>
    if job.renter_id != user.id && user.role != UserRole.admin then
      .error ⟨1008, "Job not found or access denied"⟩
    else
      let init := WsMsg.status job_id job.status.value
        ("Job is " ++ job.status.value ++ "...") none
      if job.status = JobStatus.running then
        .ok (init ::
          (demo_logs.enum.map (fun p => WsMsg.log job_id p.2 (now + 2 * (p.1 + 1)))) ++
          [WsMsg.status job_id "completed" "Job completed successfully"
            (some ("https://example.com/results/" ++ job_id ++ ".zip"))])
      else
        .ok [init]

/-! ## OAuth state verification (src/backend/google_auth.py) -/

/-- The `ValueError` reasons raised inside `_verify_oauth_state`:
wrong number of `:`-separated parts, unparsable timestamp (`int()` failure),
expiry beyond 10 minutes, and signature mismatch.  Each is surfaced as an
HTTP 400 whose detail embeds the reason. -/
inductive StateError where
  | invalidFormat
  | invalidTimestamp
  | expired
  | invalidSignature
deriving DecidableEq, Repr

/-- Split a character list at every occurrence of `sep`, keeping empty
parts: the semantics of Python `str.split(sep)` with an explicit
separator. -/
def splitOnChar (sep : Char) : List Char → List (List Char)
  | [] => [[]]
  | c :: cs =>
    let r := splitOnChar sep cs
    if c = sep then [] :: r
    else
      match r with
      | [] => [[c]]
      | p :: ps => (c :: p) :: ps

/-- Python `state.split(sep)`. -/
def pySplit (s : String) (sep : Char) : List String :=
  (splitOnChar sep s.data).map String.mk

/-- The numeric value of a decimal digit character, `none` otherwise. -/
def digitVal (c : Char) : Option Nat :=
  if '0' ≤ c ∧ c ≤ '9' then some (c.toNat - '0'.toNat) else none

/-- Accumulate a decimal number over a character list, failing on any
non-digit character. -/
def parseDigitsAux : List Char → Nat → Option Nat
  | [], acc => some acc
  | c :: cs, acc =>
    match digitVal c with
    | none => none
    | some d => parseDigitsAux cs (acc * 10 + d)

/-- Python `int(s)` on a plain optionally-signed decimal string, `none`
modelling the `ValueError` on anything else (the source's timestamps are
`str(int(time.time()))`, unsigned digit strings). -/
def pyInt (s : String) : Option Int :=
  match s.data with
  | [] => none
  | '-' :: cs =>
    if cs = [] then none
    else (parseDigitsAux cs 0).map (fun n => -(n : Int))
  | '+' :: cs =>
    if cs = [] then none
    else (parseDigitsAux cs 0).map (fun n => (n : Int))
  | cs => (parseDigitsAux cs 0).map (fun n => (n : Int))

/-- The body of `_verify_oauth_state` once the state has split into nonce,
timestamp and signature parts: parse the timestamp (`int()`), reject ages
over 600 seconds (`State expired`), then compare the provided signature
against the recomputed one (`hmac.compare_digest`). -/
def verifyParts (sig : String → String) (now : Int)
    (nonce tsStr provided : String) : Except StateError Unit :=
  match pyInt tsStr with
  | none => .error .invalidTimestamp
  | some ts =>
    if now - ts > 600 then .error .expired
    else if provided = sig (nonce ++ ":" ++ tsStr) then .ok ()
    else .error .invalidSignature

/-- `GoogleOAuth._verify_oauth_state`, parametrised by the HMAC oracle
`sig` standing for `hmac.new(SECRET_KEY, data, sha256).hexdigest()`:
split the state on `:` into exactly nonce, timestamp and signature parts
(anything else is `Invalid state format`), then check timestamp, expiry
and signature via `verifyParts`. -/
def verify_oauth_state (sig : String → String) (now : Int) (state : String) :
    Except StateError Unit :=
  match pySplit state ':' with
  | [nonce, tsStr, provided] => verifyParts sig now nonce tsStr provided
  | _ => .error .invalidFormat

/-- The gate portion of `GoogleOAuth.get_user_info`, up to (and excluding)
the token-exchange `requests.post`: an empty state is rejected with 400
before verification, a failing verification is rejected with the 400 that
`_verify_oauth_state` raises (its detail carries the reason; the constant
prefix is modelled).  The second component records whether control reaches
the token-exchange network call. -/
def get_user_info_gate (sig : String → String) (now : Int) (state : String) :
    Except HTTPError Unit × Bool :=
  if state = "" then
    (.error ⟨400, "Missing state parameter - potential CSRF attack"⟩, false)
  else
    match verify_oauth_state sig now state with
    | .error _ =>
      (.error ⟨400, "Invalid OAuth state - potential CSRF attack"⟩, false)
    | .ok () => (.ok (), true)

/-! ## Decidability helper and scenario constants -/

/-- Decidable equality of `Except` results, for evaluating the handlers on
concrete inputs. -/
instance instDecEqExcept {ε α : Type} [DecidableEq ε] [DecidableEq α] :
    DecidableEq (Except ε α) := fun x y =>
  match x, y with
  | .ok a, .ok b =>
    if h : a = b then isTrue (by rw [h])
    else isFalse (by intro hc; cases hc; exact h rfl)
  | .ok _, .error _ => isFalse (by intro hc; cases hc)
  | .error _, .ok _ => isFalse (by intro hc; cases hc)
  | .error e, .error f =>
    if h : e = f then isTrue (by rw [h])
    else isFalse (by intro hc; cases hc; exact h rfl)

/-- Owner of the host in the C1 reconnect scenario. -/
def c1User : UserRow := { id := "u1" }

/-- The registered host row in the C1 reconnect scenario. -/
def c1Host : HostRow := { id := 1, host_id := "h1", owner_id := "u1" }

/-- State after host `h1` connects twice in quick succession (channel 1,
then channel 2, before the first disconnect callback fires). -/
def c1AfterReconnect : ConnState × List HostRow :=
  let s1 := connect_host ⟨[], []⟩ [c1Host] 1 "h1" c1User 10
  connect_host s1.1 s1.2 2 "h1" c1User 11

/-- State after the stale disconnect callback for the first channel runs
`disconnect_host("h1")`. -/
def c1AfterStaleDisconnect : ConnState × List HostRow :=
  disconnect_host c1AfterReconnect.1 c1AfterReconnect.2 "h1"

/-- The non-expired queue record in the C2 scenario. -/
def c2Jd : JobData := { job_id := "j1", status := some .running }

/-- Queue state holding job `j1` as running, with a live record. -/
def c2State : RedisState :=
  { records := [⟨"job:j1", 100, c2Jd⟩], running := ["j1"], completed := [] }

/-- A user without host capability attempting the C7 role switch. -/
def c7User : UserRow := { id := "u2" }

/-- The empty Redis keyspace. -/
def emptyRedis : RedisState := {}

/-- The queue state after enqueuing jobs `a`, `b`, `c` in that order at
instants `t1`, `t2`, `t3`, starting from `s`. -/
def c3Enqueued (s : RedisState) (a b c : JobData) (t1 t2 t3 : Nat) :
    Option RedisState :=
  (enqueue_job (enqueue_job (enqueue_job (some s) t1 a).2 t2 b).2 t3 c).2

/-- Submitted job A of the C3 FIFO scenario. -/
def c3A : JobData := { job_id := "A" }

/-- Submitted job B of the C3 FIFO scenario. -/
def c3B : JobData := { job_id := "B" }

/-- Submitted job C of the C3 FIFO scenario. -/
def c3C : JobData := { job_id := "C" }

/-- The live queue record of the C8 idempotency scenario. -/
def c8Jd : JobData := { job_id := "j8", status := some .running }

/-- Queue state holding job `j8` as running, with a live record. -/
def c8State : RedisState :=
  { records := [⟨"job:j8", 90000, c8Jd⟩], running := ["j8"], completed := [] }

/-- An available, online host for the C4 submission scenario. -/
def c4Host : HostRow :=
  { id := 7, host_id := "h1", owner_id := "u1", is_online := true,
    is_available := true }

/-- An offline host for the C4 rejection scenario. -/
def c4OffHost : HostRow :=
  { id := 8, host_id := "h2", owner_id := "u1", is_online := false,
    is_available := true }

/-- The renter submitting jobs in the C4 scenario. -/
def c4User : UserRow := { id := "r1" }

/-- A submission preferring the online host `h1`. -/
def c4Submit : JobSubmit :=
  { title := "train", command := "train.sh", host_id := some "h1" }

/-- A submission preferring the offline host `h2`. -/
def c4SubmitOff : JobSubmit :=
  { title := "train", command := "train.sh", host_id := some "h2" }

/-- A running job observed in the C5 scenario. -/
def c5Job : JobRow :=
  { job_id := "j5", renter_id := "r1", command := "train.sh",
    status := .running }

/-- The renter observing job `j5` in the C5 scenario. -/
def c5User : UserRow := { id := "r1" }

/-! ## General lemmas about the Redis and dictionary models -/

theorem kvGet_kvSet_self {α : Type} (m : List (ExpEntry α)) (now ttl : Nat)
    (k : String) (v : α) (t : Nat) (h : t < now + ttl) :
    kvGet (kvSet m now ttl k v) t k = some v := by
  unfold kvGet kvSet
  rw [List.find?_cons_of_pos]
  · simp [h]
  · simp

/-- Reading back a key immediately after a 24-hour `SETEX` at the same
instant yields the stored value. -/
theorem kvGet_kvSet_day {α : Type} (m : List (ExpEntry α)) (now : Nat)
    (k : String) (v : α) : kvGet (kvSet m now 86400 k v) now k = some v :=
  kvGet_kvSet_self m now 86400 k v now (by omega)

theorem mem_sadd_self (s : List String) (x : String) : x ∈ sadd s x := by
  unfold sadd
  split
  · assumption
  · exact List.mem_cons_self x s

theorem not_mem_srem_self (s : List String) (x : String) : x ∉ srem s x := by
  simp [srem]

theorem srem_srem (s : List String) (x : String) :
    srem (srem s x) x = srem s x := by
  simp [srem, List.filter_filter]

theorem sadd_sadd (s : List String) (x : String) :
    sadd (sadd s x) x = sadd s x := by
  unfold sadd
  by_cases h : x ∈ s <;> simp [h]

/-! ## Claim C9: totality of the queue against an unreachable store -/

/-- C9: with no Redis client connected (`redis_client is None`), every queue
operation degrades instead of raising: `enqueue_job`, `start_job`,
`complete_job`, `fail_job` and `update_host_status` return `False`,
`get_next_job` and `get_job_status` return `None`, `get_available_hosts`
returns the empty list, and `cleanup_expired_jobs` returns `0`; no state is
touched. -/
theorem C9_queue_total_when_disconnected (now : Nat) (jd : JobData)
    (id hid res err : String) (sd : HostStatusData) :
    enqueue_job none now jd = (false, none) ∧
    start_job none now id hid = (false, none) ∧
    complete_job none now id res = (false, none) ∧
    fail_job none now id err = (false, none) ∧
    update_host_status none now hid sd = (false, none) ∧
    get_next_job none now = (none, none) ∧
    get_job_status none now id = none ∧
    get_available_hosts none = [] ∧
    cleanup_expired_jobs none now = (0, none) :=
  ⟨rfl, rfl, rfl, rfl, rfl, rfl, rfl, rfl, rfl⟩

/-! ## Claim C10: host-status updates drive active-set membership -/

/-- C10: a successful `update_host_status` returns `True` and leaves the
host in the `active_hosts` set returned by `get_available_hosts` exactly
when the reported `is_online` field is truthy; reporting offline removes
the host immediately, without waiting for the 5-minute record expiry. -/
theorem C10_host_status_drives_membership (s : RedisState) (now : Nat)
    (hid : String) (sd : HostStatusData) :
    (update_host_status (some s) now hid sd).1 = true ∧
    (hid ∈ get_available_hosts (update_host_status (some s) now hid sd).2 ↔
      sd.is_online = some true) := by
  by_cases h : sd.is_online = some true
  · simp [update_host_status, get_available_hosts, h, mem_sadd_self]
  · simp [update_host_status, get_available_hosts, h, not_mem_srem_self]

/-! ## Claim C1: stale disconnect against a reconnected host -/

/-- C1: evaluation of the reconnect race at its failing input.  After the
second connect the channel map holds the newer channel (2) and the host row
is online, but the stale `disconnect_host` then deletes the newer channel by
key and flips `is_online` back to false — the source compares no stored
handle or user identity before deleting, so the claimed final state
(`is_online == true`, map still holding channel 2) does not hold. -/
theorem C1_stale_disconnect_clobbers_reconnect :
    assocGet c1AfterReconnect.1.host_connections "h1" = some 2 ∧
    (c1AfterReconnect.2.find? (fun h => h.host_id == "h1")).map
      HostRow.is_online = some true ∧
    assocGet c1AfterStaleDisconnect.1.host_connections "h1" = none ∧
    (c1AfterStaleDisconnect.2.find? (fun h => h.host_id == "h1")).map
      HostRow.is_online = some false := by
  decide

/-! ## Claim C7: switching the active role to host without host capability -/

/-- C7: evaluation of `update_active_role` at its failing input.  For a user
whose `is_host` flag is false, a request to switch to the host role leaves
the user unchanged (so the invariant `active_role == host → is_host` is
preserved), but the handler surfaces HTTP 500, not the 403 the claim
states: the 403 `HTTPException` raised inside the `try` is caught by the
handler's blanket `except Exception` and replaced by a 500. -/
theorem C7_switch_to_host_surfaces_500 :
    (update_active_role UserRole.host c7User 5).1 =
      .error ⟨500, "Failed to update active role"⟩ ∧
    (update_active_role UserRole.host c7User 5).2 = c7User ∧
    ((update_active_role UserRole.host c7User 5).2.active_role = UserRole.host →
      (update_active_role UserRole.host c7User 5).2.is_host = true) := by
  refine ⟨rfl, rfl, fun hx => absurd hx (by decide)⟩

/-! ## Claim C2: terminal transitions and the running/completed sets -/

/-- C2 counterexample: `fail_job` on a job with a live record returns true
and removes the id from the running set, but does not add it to the
completed set — contradicting the claim that after each terminal transition
the id is present in the completed set. -/
theorem C2_fail_job_skips_completed_set :
    (fail_job (some c2State) 10 "j1" "boom").1 = true ∧
    "j1" ∉ runningOf (fail_job (some c2State) 10 "j1" "boom").2 ∧
    "j1" ∉ completedOf (fail_job (some c2State) 10 "j1" "boom").2 := by
  decide

/-- C2 (amended): for a job id with a non-expired queue record, both
terminal transitions return true, rewrite the expiring record with the new
status and remove the id from the running set; `complete_job` additionally
adds the id to the completed set, while `fail_job` leaves the completed set
unchanged (the failed id is not added to it). -/
theorem C2_terminal_transitions (s : RedisState) (now : Nat)
    (id res err : String) (jd : JobData)
    (h : kvGet s.records now (jobKey id) = some jd) :
    (complete_job (some s) now id res).1 = true ∧
    recordStatus (complete_job (some s) now id res).2 now id =
      some .completed ∧
    id ∉ runningOf (complete_job (some s) now id res).2 ∧
    id ∈ completedOf (complete_job (some s) now id res).2 ∧
    (fail_job (some s) now id err).1 = true ∧
    recordStatus (fail_job (some s) now id err).2 now id = some .failed ∧
    id ∉ runningOf (fail_job (some s) now id err).2 ∧
    completedOf (fail_job (some s) now id err).2 = s.completed := by
  simp [complete_job, fail_job, h, recordStatus, get_job_status,
        runningOf, completedOf, kvGet_kvSet_day, mem_sadd_self,
        not_mem_srem_self]

/-- C2 witness: the amended transition behaviour at a concrete state with a
live record for `j1`. -/
theorem C2_terminal_transitions_witness :
    "j1" ∈ completedOf (complete_job (some c2State) 10 "j1" "res").2 ∧
    recordStatus (complete_job (some c2State) 10 "j1" "res").2 10 "j1" =
      some .completed ∧
    completedOf (fail_job (some c2State) 10 "j1" "boom").2 =
      c2State.completed := by
  have h := C2_terminal_transitions c2State 10 "j1" "res" "boom" c2Jd
    (by decide)
  exact ⟨h.2.2.2.1, h.2.1, h.2.2.2.2.2.2.2⟩

/-! ## Claim C3: FIFO dequeue -/

/-- C3: enqueuing jobs A, B, C in that order into an empty pending list and
then calling `get_next_job` three times returns them in the same order
A, B, C, each restamped to `assigned`, and after each dequeue the job's
expiring record has been rewritten to the assigned version. -/
theorem C3_fifo_dequeue (s : RedisState) (hs : s.pending = [])
    (a b c : JobData) (t1 t2 t3 t4 t5 t6 : Nat) :
    (get_next_job (c3Enqueued s a b c t1 t2 t3) t4).1 =
      some { a with queued_at := some t1, status := some .assigned,
                    assigned_at := some t4 } ∧
    get_job_status (get_next_job (c3Enqueued s a b c t1 t2 t3) t4).2 t4
        a.job_id =
      some { a with queued_at := some t1, status := some .assigned,
                    assigned_at := some t4 } ∧
    (get_next_job (get_next_job (c3Enqueued s a b c t1 t2 t3) t4).2 t5).1 =
      some { b with queued_at := some t2, status := some .assigned,
                    assigned_at := some t5 } ∧
    get_job_status
        (get_next_job (get_next_job (c3Enqueued s a b c t1 t2 t3) t4).2 t5).2
        t5 b.job_id =
      some { b with queued_at := some t2, status := some .assigned,
                    assigned_at := some t5 } ∧
    (get_next_job (get_next_job
        (get_next_job (c3Enqueued s a b c t1 t2 t3) t4).2 t5).2 t6).1 =
      some { c with queued_at := some t3, status := some .assigned,
                    assigned_at := some t6 } ∧
    get_job_status (get_next_job (get_next_job
        (get_next_job (c3Enqueued s a b c t1 t2 t3) t4).2 t5).2 t6).2
        t6 c.job_id =
      some { c with queued_at := some t3, status := some .assigned,
                    assigned_at := some t6 } := by
  obtain ⟨pend, recs, run, comp, hstat, act⟩ := s
  simp only at hs
  subst hs
  refine ⟨rfl, ?_, rfl, ?_, rfl, ?_⟩ <;>
    simp [c3Enqueued, enqueue_job, get_next_job, rpop, get_job_status,
          kvGet_kvSet_day]

/-- C3 witness: the FIFO property evaluated on the concrete jobs A, B, C
enqueued into the empty keyspace. -/
theorem C3_fifo_dequeue_witness :
    (get_next_job (c3Enqueued emptyRedis c3A c3B c3C 1 2 3) 4).1 =
      some { c3A with queued_at := some 1, status := some .assigned,
                      assigned_at := some 4 } ∧
    (get_next_job
        (get_next_job (c3Enqueued emptyRedis c3A c3B c3C 1 2 3) 4).2 5).1 =
      some { c3B with queued_at := some 2, status := some .assigned,
                      assigned_at := some 5 } ∧
    (get_next_job (get_next_job
        (get_next_job (c3Enqueued emptyRedis c3A c3B c3C 1 2 3) 4).2 5).2 6).1 =
      some { c3C with queued_at := some 3, status := some .assigned,
                      assigned_at := some 6 } := by
  have h := C3_fifo_dequeue emptyRedis rfl c3A c3B c3C 1 2 3 4 5 6
  exact ⟨h.1, h.2.2.1, h.2.2.2.2.1⟩

/-! ## Claim C8: idempotent terminal transitions -/

/-- C8: reapplying the same terminal transition to a job with a live queue
record yields the same record status and the same running/completed set
memberships as applying it once: the second `complete_job` (resp.
`fail_job`) rewrites the record with the same status and the set
operations are idempotent.  `t2` is the retry instant, within the record's
24-hour expiry window. -/
theorem C8_terminal_transitions_idempotent (s : RedisState) (t1 t2 : Nat)
    (id res err : String) (jd : JobData)
    (h : kvGet s.records t1 (jobKey id) = some jd)
    (ht : t2 < t1 + 86400) :
    recordStatus
        (complete_job (complete_job (some s) t1 id res).2 t2 id res).2 t2 id =
      recordStatus (complete_job (some s) t1 id res).2 t2 id ∧
    runningOf (complete_job (complete_job (some s) t1 id res).2 t2 id res).2 =
      runningOf (complete_job (some s) t1 id res).2 ∧
    completedOf
        (complete_job (complete_job (some s) t1 id res).2 t2 id res).2 =
      completedOf (complete_job (some s) t1 id res).2 ∧
    recordStatus (fail_job (fail_job (some s) t1 id err).2 t2 id err).2 t2 id =
      recordStatus (fail_job (some s) t1 id err).2 t2 id ∧
    runningOf (fail_job (fail_job (some s) t1 id err).2 t2 id err).2 =
      runningOf (fail_job (some s) t1 id err).2 ∧
    completedOf (fail_job (fail_job (some s) t1 id err).2 t2 id err).2 =
      completedOf (fail_job (some s) t1 id err).2 := by
  have hkv : ∀ v : JobData,
      kvGet (kvSet s.records t1 86400 (jobKey id) v) t2 (jobKey id) = some v :=
    fun v => kvGet_kvSet_self s.records t1 86400 (jobKey id) v t2 ht
  simp [complete_job, fail_job, h, hkv, recordStatus, get_job_status,
        runningOf, completedOf, kvGet_kvSet_day, srem_srem, sadd_sadd]

/-- C8 witness: idempotency evaluated at a concrete state with a live
record for `j8`, first application at instant 10 and retry at instant 20. -/
theorem C8_terminal_transitions_idempotent_witness :
    completedOf
        (complete_job (complete_job (some c8State) 10 "j8" "res").2 20 "j8" "res").2 =
      completedOf (complete_job (some c8State) 10 "j8" "res").2 ∧
    runningOf (fail_job (fail_job (some c8State) 10 "j8" "err").2 20 "j8" "err").2 =
      runningOf (fail_job (some c8State) 10 "j8" "err").2 := by
  have h := C8_terminal_transitions_idempotent c8State 10 20 "j8" "res" "err"
    c8Jd (by decide) (by omega)
  exact ⟨h.2.2.1, h.2.2.2.2.1⟩

/-! ## Claim C4: preferred-host validation at submission time -/

/-- C4: when a submission names a preferred `host_id` for which no host row
is simultaneously registered, available and online, `submit_job` rejects
synchronously with HTTP 400 and neither the durable job list nor the queue
state changes; when such a host is found, the created job row's `host_id`
foreign key is that host's primary key. -/
theorem C4_preferred_host_validation (job_data : JobSubmit) (user : UserRow)
    (hosts : List HostRow) (jobs : List JobRow) (q : Option RedisState)
    (gid hid : String) (hpref : job_data.host_id = some hid) :
    ((∀ h ∈ hosts,
        ¬(h.host_id = hid ∧ h.is_available = true ∧ h.is_online = true)) →
      submit_job job_data user hosts jobs q gid =
        (.error ⟨400, "Specified host not available"⟩, jobs, q)) ∧
    (∀ h : HostRow,
      hosts.find? (fun x => x.host_id == hid && x.is_available && x.is_online)
        = some h →
      (submit_job job_data user hosts jobs q gid).1 =
        .ok (mkNewJob job_data user gid (some h.id)) ∧
      (mkNewJob job_data user gid (some h.id)).host_id = some h.id ∧
      (submit_job job_data user hosts jobs q gid).2 =
        (jobs ++ [mkNewJob job_data user gid (some h.id)], q)) := by
  constructor
  · intro hnone
    have hfind : hosts.find?
        (fun x => x.host_id == hid && x.is_available && x.is_online) = none := by
      rw [List.find?_eq_none]
      intro x hx hp
      simp only [Bool.and_eq_true, beq_iff_eq] at hp
      exact hnone x hx ⟨hp.1.1, hp.1.2, hp.2⟩
    simp [submit_job, hpref, hfind]
  · intro h hfind
    simp [submit_job, hpref, hfind, mkNewJob]

/-- C4 witness: the acceptance branch on the online, available host `h1`
(the new row is bound to its primary key) and the rejection branch on the
offline host `h2`. -/
theorem C4_preferred_host_validation_witness :
    (submit_job c4Submit c4User [c4Host] [] none "job_1").1 =
      .ok (mkNewJob c4Submit c4User "job_1" (some c4Host.id)) ∧
    submit_job c4SubmitOff c4User [c4OffHost] [] none "job_2" =
      (.error ⟨400, "Specified host not available"⟩, [], none) := by
  refine ⟨((C4_preferred_host_validation c4Submit c4User [c4Host] [] none
    "job_1" "h1" rfl).2 c4Host (by decide)).1, ?_⟩
  exact (C4_preferred_host_validation c4SubmitOff c4User [c4OffHost] [] none
    "job_2" "h2" rfl).1 (by decide)

/-! ## Claim C5: job-observer message sequence -/

/-- C5: an authorized observer (the submitting renter or an admin) opening
the job channel for a running job receives exactly: one status message with
the current status, then the non-empty ordered log sequence, then a final
status message with status `completed` bearing the results URL; for a job
in any other status, only the initial status message is sent. -/
theorem C5_observer_message_sequence (job_id : String) (jobs : List JobRow)
    (user : UserRow) (now : Nat) (job : JobRow)
    (hfind : jobs.find? (fun j => j.job_id == job_id) = some job)
    (hauth : job.renter_id = user.id ∨ user.role = UserRole.admin) :
    (job.status = JobStatus.running →
      websocket_job_endpoint job_id jobs user now =
        .ok (WsMsg.status job_id "running" "Job is running..." none ::
          demo_logs.enum.map
            (fun p => WsMsg.log job_id p.2 (now + 2 * (p.1 + 1))) ++
          [WsMsg.status job_id "completed" "Job completed successfully"
            (some ("https://example.com/results/" ++ job_id ++ ".zip"))]) ∧
      demo_logs.enum.map
        (fun p => WsMsg.log job_id p.2 (now + 2 * (p.1 + 1))) ≠ []) ∧
    (job.status ≠ JobStatus.running →
      websocket_job_endpoint job_id jobs user now =
        .ok [WsMsg.status job_id job.status.value
          ("Job is " ++ job.status.value ++ "...") none]) := by
  have hcond : (job.renter_id != user.id && user.role != UserRole.admin)
      = false := by
    rcases hauth with h | h <;> simp [h]
  have hval : JobStatus.value JobStatus.running = "running" := rfl
  have hmsg : ("Job is " ++ JobStatus.value JobStatus.running ++ "...")
      = "Job is running..." := rfl
  have hmsg2 : ("Job is " ++ "running" ++ "...") = "Job is running..." := rfl
  constructor
  · intro hrun
    constructor
    · simp [websocket_job_endpoint, hfind, hcond, hrun, hval, hmsg, hmsg2]
    · simp [demo_logs]
  · intro hnot
    simp [websocket_job_endpoint, hfind, hcond, hnot]

/-- C5 witness: the full message sequence for the concrete running job `j5`
observed by its renter. -/
theorem C5_observer_message_sequence_witness :
    websocket_job_endpoint "j5" [c5Job] c5User 0 =
      .ok (WsMsg.status "j5" "running" "Job is running..." none ::
        demo_logs.enum.map
          (fun p => WsMsg.log "j5" p.2 (0 + 2 * (p.1 + 1))) ++
        [WsMsg.status "j5" "completed" "Job completed successfully"
          (some ("https://example.com/results/" ++ "j5" ++ ".zip"))]) := by
  exact ((C5_observer_message_sequence "j5" [c5Job] c5User 0 c5Job
    (by decide) (Or.inl rfl)).1 rfl).1

/-! ## Claim C6: OAuth state verification -/

/-- A state splitting into exactly three parts is in particular non-empty
(the empty string splits into the single part `[""]`). -/
theorem splitOn_three_ne_empty {state nonce tsStr provided : String}
    (h : pySplit state ':' = [nonce, tsStr, provided]) : state ≠ "" := by
  intro he
  subst he
  rw [show pySplit "" ':' = [""] from rfl] at h
  simp at h

/-- Reduction of `verify_oauth_state` once the state splits into nonce,
timestamp and signature parts. -/
theorem verify_oauth_state_three (sig : String → String) (now : Int)
    (state nonce tsStr provided : String)
    (hsp : pySplit state ':' = [nonce, tsStr, provided]) :
    verify_oauth_state sig now state =
      verifyParts sig now nonce tsStr provided := by
  unfold verify_oauth_state
  rw [hsp]

/-- Reduction of `verifyParts` once the timestamp parses. -/
theorem verifyParts_some (sig : String → String) (now : Int)
    (nonce tsStr provided : String) (ts : Int)
    (hts : pyInt tsStr = some ts) :
    verifyParts sig now nonce tsStr provided =
      (if now - ts > 600 then .error .expired
       else if provided = sig (nonce ++ ":" ++ tsStr) then .ok ()
       else .error .invalidSignature) := by
  unfold verifyParts
  rw [hts]

/-- Reduction of `verifyParts` when the timestamp part fails to parse as an
integer. -/
theorem verifyParts_none (sig : String → String) (now : Int)
    (nonce tsStr provided : String) (hts : pyInt tsStr = none) :
    verifyParts sig now nonce tsStr provided = .error .invalidTimestamp := by
  unfold verifyParts
  rw [hts]

/-- Reduction of `verify_oauth_state` when the state does not split into
exactly three parts. -/
theorem verify_oauth_state_malformed (sig : String → String) (now : Int)
    (state : String) (hlen : (pySplit state ':').length ≠ 3) :
    verify_oauth_state sig now state = .error .invalidFormat := by
  unfold verify_oauth_state
  split
  · next nonce tsStr provided hsp =>
    exact absurd (by rw [hsp]; rfl) hlen
  · rfl

/-- A failing verification makes the gate reject with 400 before the
token-exchange call. -/
theorem gate_of_verify_error (sig : String → String) (now : Int)
    (state : String) (e : StateError) (hne : state ≠ "")
    (hv : verify_oauth_state sig now state = .error e) :
    get_user_info_gate sig now state =
      (.error ⟨400, "Invalid OAuth state - potential CSRF attack"⟩, false) := by
  unfold get_user_info_gate
  rw [if_neg hne, hv]

/-- C6: an OAuth callback state older than 10 minutes, with a tampered
signature, with an unparsable timestamp, malformed (not three parts), or
missing, is rejected with HTTP 400 before the token-exchange network call
is reached; a three-part state whose timestamp parses, is at most 600
seconds old and whose signature matches the recomputed HMAC passes
verification and proceeds to the exchange. -/
theorem C6_oauth_state_verification (sig : String → String) (now : Int)
    (state nonce tsStr provided : String) (ts : Int) :
    (pySplit state ':' = [nonce, tsStr, provided] → pyInt tsStr = some ts →
      now - ts > 600 →
      verify_oauth_state sig now state = .error .expired ∧
      get_user_info_gate sig now state =
        (.error ⟨400, "Invalid OAuth state - potential CSRF attack"⟩, false)) ∧
    (pySplit state ':' = [nonce, tsStr, provided] → pyInt tsStr = some ts →
      now - ts ≤ 600 → provided ≠ sig (nonce ++ ":" ++ tsStr) →
      verify_oauth_state sig now state = .error .invalidSignature ∧
      get_user_info_gate sig now state =
        (.error ⟨400, "Invalid OAuth state - potential CSRF attack"⟩, false)) ∧
    (pySplit state ':' = [nonce, tsStr, provided] → pyInt tsStr = none →
      verify_oauth_state sig now state = .error .invalidTimestamp ∧
      get_user_info_gate sig now state =
        (.error ⟨400, "Invalid OAuth state - potential CSRF attack"⟩, false)) ∧
    ((pySplit state ':').length ≠ 3 → state ≠ "" →
      verify_oauth_state sig now state = .error .invalidFormat ∧
      get_user_info_gate sig now state =
        (.error ⟨400, "Invalid OAuth state - potential CSRF attack"⟩, false)) ∧
    (state = "" →
      get_user_info_gate sig now state =
        (.error ⟨400, "Missing state parameter - potential CSRF attack"⟩,
          false)) ∧
    (pySplit state ':' = [nonce, tsStr, provided] → pyInt tsStr = some ts →
      now - ts ≤ 600 → provided = sig (nonce ++ ":" ++ tsStr) →
      verify_oauth_state sig now state = .ok () ∧
      get_user_info_gate sig now state = (.ok (), true)) := by
  refine ⟨?_, ?_, ?_, ?_, ?_, ?_⟩
  · intro hsp hts hexp
    have hv : verify_oauth_state sig now state = .error .expired := by
      rw [verify_oauth_state_three sig now state nonce tsStr provided hsp,
        verifyParts_some sig now nonce tsStr provided ts hts, if_pos hexp]
    exact ⟨hv, gate_of_verify_error sig now state .expired
      (splitOn_three_ne_empty hsp) hv⟩
  · intro hsp hts hle hsig
    have hv : verify_oauth_state sig now state = .error .invalidSignature := by
      rw [verify_oauth_state_three sig now state nonce tsStr provided hsp,
        verifyParts_some sig now nonce tsStr provided ts hts,
        if_neg (not_lt.mpr hle), if_neg hsig]
    exact ⟨hv, gate_of_verify_error sig now state .invalidSignature
      (splitOn_three_ne_empty hsp) hv⟩
  · intro hsp hts
    have hv : verify_oauth_state sig now state = .error .invalidTimestamp := by
      rw [verify_oauth_state_three sig now state nonce tsStr provided hsp,
        verifyParts_none sig now nonce tsStr provided hts]
    exact ⟨hv, gate_of_verify_error sig now state .invalidTimestamp
      (splitOn_three_ne_empty hsp) hv⟩
  · intro hlen hne
    have hv := verify_oauth_state_malformed sig now state hlen
    exact ⟨hv, gate_of_verify_error sig now state .invalidFormat hne hv⟩
  · intro he
    unfold get_user_info_gate
    rw [if_pos he]
  · intro hsp hts hle hsig
    have hv : verify_oauth_state sig now state = .ok () := by
      rw [verify_oauth_state_three sig now state nonce tsStr provided hsp,
        verifyParts_some sig now nonce tsStr provided ts hts,
        if_neg (not_lt.mpr hle), if_pos hsig]
    refine ⟨hv, ?_⟩
    unfold get_user_info_gate
    rw [if_neg (splitOn_three_ne_empty hsp), hv]

/-- C6 witness: a well-formed state `abc:100:deadbeef`, 550 seconds old at
verification time, with a matching signature, passes verification and
reaches the exchange; the tampered state `abc:100:wrong` is rejected before
the exchange. -/
theorem C6_oauth_state_verification_witness :
    (verify_oauth_state (fun _ => "deadbeef") 650 "abc:100:deadbeef" =
        .ok () ∧
      get_user_info_gate (fun _ => "deadbeef") 650 "abc:100:deadbeef" =
        (.ok (), true)) ∧
    get_user_info_gate (fun _ => "deadbeef") 650 "abc:100:wrong" =
      (.error ⟨400, "Invalid OAuth state - potential CSRF attack"⟩, false) := by
  constructor
  · exact (C6_oauth_state_verification (fun _ => "deadbeef") 650
      "abc:100:deadbeef" "abc" "100" "deadbeef" 100).2.2.2.2.2
      (by decide) (by decide) (by decide) rfl
  · exact ((C6_oauth_state_verification (fun _ => "deadbeef") 650
      "abc:100:wrong" "abc" "100" "wrong" 100).2.1
      (by decide) (by decide) (by decide) (by decide)).2

end GPURent
